import Mathlib

/-!
Verification development for the spices/phytochemicals database application.

The definitions below are a shallow embedding of the on-demand PubChem
enrichment core of `src/app.py` (download with retry/backoff, structure-path
upsert, descriptor fetch with TXT fallback, drug-likeness rule evaluator,
detail-page cache-miss decisions, admin batch downloader).

Remote HTTP calls are modelled by oracles: a download network is a function
from the 1-based attempt number to the outcome of that attempt (an error, or
a response body given as a list of bytes).  The filesystem is an association
list from destination path to file content; the SQLite rows touched by the
enrichment core are explicit record structures.
-/

namespace SpicesDB

/-- Outcome of one HTTP GET attempt: an exception
(`urllib.error.HTTPError`/`URLError`/`TimeoutError`), or a response body. -/
inductive NetResult where
  | err : NetResult
  | ok : List Nat → NetResult
deriving DecidableEq, Repr

/-- Filesystem model: association list from destination path to byte content.
Later entries are shadowed by earlier ones. -/
abbrev FS : Type := List (String × List Nat)

/-- Look a path up in the filesystem (`os.path.exists` + content). -/
def fsGet : FS → String → Option (List Nat)
  | [], _ => none
  | (k, v) :: rest, dest => if k = dest then some v else fsGet rest dest

/-- Write a file (`open(dest, "wb"); f.write(content)`). -/
def fsSet (fs : FS) (dest : String) (content : List Nat) : FS :=
  (dest, content) :: fs

/-- Result of `download_file`: the returned boolean, the filesystem after the
call, and how many backoff sleeps (`time.sleep(0.8 * attempt)`) were
performed. -/
structure DlOutcome where
  ok : Bool
  fs : FS
  sleeps : Nat
deriving DecidableEq, Repr

/-- The retry loop of `download_file` (`for attempt in range(1, retries + 1)`).
An attempt succeeds when the body has at least 100 bytes (the code raises
`ValueError("Downloaded content too small/invalid")` on
`not content or len(content) < 100`); on any failure the code sleeps
`0.8 * attempt` seconds and retries. -/
def downloadAttempts (net : Nat → NetResult) (dest : String) (fs : FS)
    (attempt : Nat) : Nat → DlOutcome
  | 0 => ⟨false, fs, 0⟩
  | remaining + 1 =>
    match net attempt with
    | NetResult.ok content =>
      if 100 ≤ content.length then
        ⟨true, fsSet fs dest content, 0⟩
      else
        let o := downloadAttempts net dest fs (attempt + 1) remaining
        ⟨o.ok, o.fs, o.sleeps + 1⟩
    | NetResult.err =>
      let o := downloadAttempts net dest fs (attempt + 1) remaining
      ⟨o.ok, o.fs, o.sleeps + 1⟩

/-- `download_file(url, dest, timeout=25, retries=3)` from `src/app.py`:
skips the download when `dest` already exists with size `> 0`, otherwise runs
the retry loop; returns `False` after exhausting the retries and never lets an
exception escape (every handler catches and retries). -/
def download_file (net : Nat → NetResult) (dest : String) (fs : FS)
    (retries : Nat) : DlOutcome :=
  match fsGet fs dest with
  | some c => if 0 < c.length then ⟨true, fs, 0⟩ else downloadAttempts net dest fs 1 retries
  | none => downloadAttempts net dest fs 1 retries

/-- One row of the `structures` table. -/
structure StructRow where
  has_2d : Bool
  has_3d : Bool
  sdf_2d_path : Option String
  sdf_3d_path : Option String
  png_2d_path : Option String
deriving DecidableEq, Repr

/-- The row inserted by `upsert_structure_paths` when no row exists yet
(`VALUES (?, 0, 0, NULL, NULL, NULL)`). -/
def emptyStructRow : StructRow :=
  ⟨false, false, none, none, none⟩

/-- DB-stored path for the 2D SDF (`f"structures/sdf2d/CID_{cid}.sdf"`). -/
def dbPath2d (cid : Nat) : String :=
  "structures/sdf2d/CID_" ++ toString cid ++ ".sdf"

/-- DB-stored path for the 3D SDF (`f"structures/sdf3d/CID_{cid}.sdf"`). -/
def dbPath3d (cid : Nat) : String :=
  "structures/sdf3d/CID_" ++ toString cid ++ ".sdf"

/-- DB-stored path for the PNG (`f"structures/png/CID_{cid}.png"`). -/
def dbPathPng (cid : Nat) : String :=
  "structures/png/CID_" ++ toString cid ++ ".png"

/-- `upsert_structure_paths(phyto_id, cid, got2d, got3d, gotpng)`:
insert-if-absent (`ON CONFLICT(phyto_id) DO NOTHING`), then update only the
fields whose artifact was downloaded this round. -/
def upsert_structure_paths (cid : Nat) (got2d got3d gotpng : Bool)
    (row : Option StructRow) : StructRow :=
  let base := row.getD emptyStructRow
  let r1 := if got2d then
      { base with has_2d := true, sdf_2d_path := some (dbPath2d cid) }
    else base
  let r2 := if got3d then
      { r1 with has_3d := true, sdf_3d_path := some (dbPath3d cid) }
    else r1
  if gotpng then { r2 with png_2d_path := some (dbPathPng cid) } else r2

/-- Download destination under `static/structures/sdf2d`
(`os.path.join(SDF2D_DIR, f"CID_{cid}.sdf")`). -/
def fsDest2d (cid : Nat) : String :=
  "static/structures/sdf2d/CID_" ++ toString cid ++ ".sdf"

/-- Download destination under `static/structures/sdf3d`. -/
def fsDest3d (cid : Nat) : String :=
  "static/structures/sdf3d/CID_" ++ toString cid ++ ".sdf"

/-- Download destination under `static/structures/png`. -/
def fsDestPng (cid : Nat) : String :=
  "static/structures/png/CID_" ++ toString cid ++ ".png"

/-- The mutable state touched by one structure-enrichment pass: the artifact
filesystem and this phytochemical's `structures` row (if any). -/
structure EnrichState where
  fs : FS
  structRow : Option StructRow
deriving DecidableEq, Repr

/-- The three per-artifact download networks used by one enrichment pass. -/
structure NetTriple where
  net2d : Nat → NetResult
  net3d : Nat → NetResult
  netPng : Nat → NetResult

/-- `fetch_structures_on_demand(phyto_id, cid)` from `src/app.py`: returns
`False` immediately when `not cid`; otherwise downloads the three artifacts
(2D SDF, 3D SDF, PNG) with `download_file` and, if at least one succeeded,
upserts the structures row and returns `True`; if all three failed, returns
`False` without touching the database. -/
def fetch_structures_on_demand (nets : NetTriple) (cid : Nat)
    (st : EnrichState) : Bool × EnrichState :=
  if cid = 0 then (false, st)
  else
    let d2 := download_file nets.net2d (fsDest2d cid) st.fs 3
    let d3 := download_file nets.net3d (fsDest3d cid) d2.fs 3
    let dp := download_file nets.netPng (fsDestPng cid) d3.fs 3
    if d2.ok || d3.ok || dp.ok then
      (true, ⟨dp.fs, some (upsert_structure_paths cid d2.ok d3.ok dp.ok st.structRow)⟩)
    else
      (false, ⟨dp.fs, st.structRow⟩)

/-- The `Properties[0]` object of the batched PubChem property JSON, restricted
to the 15 properties requested by `fetch_descriptors_from_pubchem`; each field
may be absent from the JSON (`props_obj.get(...)` returns `None`). -/
structure PropsObj where
  MolecularFormula : Option String
  MolecularWeight : Option ℚ
  XLogP : Option ℚ
  TPSA : Option ℚ
  HBondDonorCount : Option Int
  HBondAcceptorCount : Option Int
  RotatableBondCount : Option Int
  HeavyAtomCount : Option Int
  Complexity : Option ℚ
  Charge : Option Int
  CanonicalSMILES : Option String
  IsomericSMILES : Option String
  InChI : Option String
  InChIKey : Option String
  IUPACName : Option String
deriving DecidableEq, Repr

/-- One row of the `descriptors` table (all value columns are nullable). -/
structure DescRow where
  molecular_formula : Option String
  molecular_weight : Option ℚ
  xlogp : Option ℚ
  tpsa : Option ℚ
  hbd : Option Int
  hba : Option Int
  rotatable_bonds : Option Int
  heavy_atom_count : Option Int
  complexity : Option ℚ
  charge : Option Int
  smiles : Option String
  isomeric_smiles : Option String
  inchi : Option String
  inchikey : Option String
  iupac_name : Option String
deriving DecidableEq, Repr

/-- Python `str.strip()`: drop whitespace from both ends. -/
def pyStrip (s : String) : String :=
  ⟨((s.data.dropWhile Char.isWhitespace).reverse.dropWhile
      Char.isWhitespace).reverse⟩

/-- Python `str.lower()`. -/
def pyLower (s : String) : String :=
  ⟨s.data.map Char.toLower⟩

/-- `_pubchem_get_txt(cid, prop)` from `src/app.py`, modelled on the raw TXT
response (`none` = the request raised, any exception being caught inside the
function): strips the body and returns it unless it is empty or equals
`"null"` case-insensitively, in which case it returns `None`. -/
def pubchem_get_txt (response : Option String) : Option String :=
  match response with
  | none => none
  | some body =>
    let txt := pyStrip body
    if txt ≠ "" ∧ pyLower txt ≠ "null" then some txt else none

/-- `fetch_descriptors_from_pubchem(phyto_id, cid)` from `src/app.py`.
`batched` is the outcome of `_pubchem_get_properties` (`none` = it raised);
`txtCanonical`/`txtIsomeric` are the raw TXT responses consumed by the
`_pubchem_get_txt` fallbacks.  Returns the function's boolean result and the
`descriptors` row for this `phyto_id` after the call: on success the
`ON CONFLICT(phyto_id) DO UPDATE` sets every column to the freshly fetched
value, so the stored row is exactly the fresh row; on failure (falsy `cid` or
an exception in the batched fetch) nothing is written. -/
def fetch_descriptors_from_pubchem (batched : Option PropsObj)
    (txtCanonical txtIsomeric : Option String) (cid : Nat)
    (desc : Option DescRow) : Bool × Option DescRow :=
  if cid = 0 then (false, desc)
  else
    match batched with
    | none => (false, desc)
    | some p =>
      let row : DescRow :=
        { molecular_formula := p.MolecularFormula
          molecular_weight := p.MolecularWeight
          xlogp := p.XLogP
          tpsa := p.TPSA
          hbd := p.HBondDonorCount
          hba := p.HBondAcceptorCount
          rotatable_bonds := p.RotatableBondCount
          heavy_atom_count := p.HeavyAtomCount
          complexity := p.Complexity
          charge := p.Charge
          smiles := p.CanonicalSMILES
          isomeric_smiles := p.IsomericSMILES
          inchi := p.InChI
          inchikey := p.InChIKey
          iupac_name := p.IUPACName }
      let row :=
        if row.smiles = none then
          { row with smiles := pubchem_get_txt txtCanonical }
        else row
      let row :=
        if row.isomeric_smiles = none then
          { row with isomeric_smiles := pubchem_get_txt txtIsomeric }
        else row
      (true, some row)

/-- The joined row returned by `fetch_phyto_full` (restricted to the columns
the enrichment decisions and the rule evaluator read): the phytochemical's
`cid` plus the nullable `structures` paths and `descriptors` fields. -/
structure PhytoRecord where
  cid : Option Nat
  sdf_2d_path : Option String
  sdf_3d_path : Option String
  png_2d_path : Option String
  molecular_weight : Option ℚ
  xlogp : Option ℚ
  tpsa : Option ℚ
  hbd : Option Int
  hba : Option Int
  rotatable_bonds : Option Int
  smiles : Option String
  inchikey : Option String
deriving DecidableEq, Repr

/-- Python guard `x is not None and x > t` for a float column. -/
def optGtQ (x : Option ℚ) (t : ℚ) : Bool :=
  match x with
  | none => false
  | some v => t < v

/-- Python guard `x is not None and x > t` for an integer column. -/
def optGtI (x : Option Int) (t : Int) : Bool :=
  match x with
  | none => false
  | some v => t < v

/-- Python guard `x is not None and (x < lo or x > hi)`. -/
def optOutsideQ (x : Option ℚ) (lo hi : ℚ) : Bool :=
  match x with
  | none => false
  | some v => v < lo || hi < v

/-- One entry of the dict returned by `calc_druglikeness_rules`:
`{"pass": len(fails) == 0, "fail_count": len(fails), "fails": fails, "note": ...}`. -/
structure RuleResult where
  pass : Bool
  fail_count : Nat
  fails : List String
  note : String
deriving DecidableEq, Repr

/-- Build a rule entry from its violated-threshold list, as the source does. -/
def mkRuleResult (fails : List String) (note : String) : RuleResult :=
  ⟨fails.length == 0, fails.length, fails, note⟩

/-- The five named rule sets returned by `calc_druglikeness_rules`. -/
structure RuleResults where
  Lipinski : RuleResult
  Veber : RuleResult
  Ghose : RuleResult
  Egan : RuleResult
  Muegge : RuleResult
deriving DecidableEq, Repr

/-- `calc_druglikeness_rules(d)` from `src/app.py`: evaluates the Lipinski,
Veber, Ghose, Egan and Muegge threshold sets over the (nullable) descriptor
fields; each comparison is guarded by `x is not None and ...`, so a missing
field is skipped rather than counted as a failure. -/
def calc_druglikeness_rules (d : PhytoRecord) : RuleResults :=
  let mw := d.molecular_weight
  let xlogp := d.xlogp
  let tpsa := d.tpsa
  let hbd := d.hbd
  let hba := d.hba
  let rot := d.rotatable_bonds
  let lipinskiFails :=
    (if optGtQ mw 500 then ["MW > 500"] else []) ++
    (if optGtQ xlogp 5 then ["XlogP > 5"] else []) ++
    (if optGtI hbd 5 then ["HBD > 5"] else []) ++
    (if optGtI hba 10 then ["HBA > 10"] else [])
  let veberFails :=
    (if optGtI rot 10 then ["RotB > 10"] else []) ++
    (if optGtQ tpsa 140 then ["TPSA > 140"] else [])
  let ghoseFails :=
    (if optOutsideQ mw 160 480 then ["MW not in 160–480"] else []) ++
    (if optOutsideQ xlogp (-0.4) 5.6 then ["XLogP not in −0.4–5.6"] else [])
  let eganFails :=
    (if optGtQ tpsa 131.6 then ["TPSA > 131.6"] else []) ++
    (if optGtQ xlogp 5.88 then ["XlogP > 5.88"] else [])
  let mueggeFails :=
    (if optOutsideQ mw 200 600 then ["MW not in 200–600"] else []) ++
    (if optGtQ xlogp 5 then ["XLogP > 5"] else []) ++
    (if optGtQ tpsa 150 then ["TPSA > 150"] else []) ++
    (if optGtI hbd 5 then ["HBD > 5"] else []) ++
    (if optGtI hba 10 then ["HBA > 10"] else []) ++
    (if optGtI rot 15 then ["RotB > 15"] else [])
  { Lipinski := mkRuleResult lipinskiFails "Rule of 5"
    Veber := mkRuleResult veberFails "Oral bioavailability"
    Ghose := mkRuleResult ghoseFails "Drug-likeness (Ghose)"
    Egan := mkRuleResult eganFails "Absorption/permeation"
    Muegge := mkRuleResult mueggeFails "Drug-likeness (Muegge)" }

/-- The detail page computes
`calc_druglikeness_rules(phyto) if phyto["molecular_weight"] is not None else None`. -/
def detail_drug_rules (p : PhytoRecord) : Option RuleResults :=
  if p.molecular_weight.isNone then none else some (calc_druglikeness_rules p)

/-- Python truthiness test `not x` on a nullable string column. -/
def pyFalsy (s : Option String) : Bool :=
  match s with
  | none => true
  | some t => t = ""

/-- Python truthiness test `if cid` on the nullable `cid` column. -/
def cidTruthy (c : Option Nat) : Bool :=
  match c with
  | none => false
  | some n => n ≠ 0

/-- `missing_all_structures` from `phytochemical_detail`:
`not sdf_2d_path and not sdf_3d_path and not png_2d_path`. -/
def missing_all_structures (p : PhytoRecord) : Bool :=
  pyFalsy p.sdf_2d_path && pyFalsy p.sdf_3d_path && pyFalsy p.png_2d_path

/-- `missing_desc` from `phytochemical_detail`:
`molecular_weight is None or smiles is None or inchikey is None`. -/
def missing_desc (p : PhytoRecord) : Bool :=
  p.molecular_weight.isNone || p.smiles.isNone || p.inchikey.isNone

/-- The detail page calls `fetch_structures_on_demand` exactly when
`cid and missing_all_structures`. -/
def attempts_structure_fetch (p : PhytoRecord) : Bool :=
  cidTruthy p.cid && missing_all_structures p

/-- The detail page calls `fetch_descriptors_from_pubchem` exactly when
`cid and missing_desc`. -/
def attempts_desc_fetch (p : PhytoRecord) : Bool :=
  cidTruthy p.cid && missing_desc p

/-- One row of the `phytochemicals` table, restricted to the columns the admin
batch downloader reads. -/
structure PhytoEntry where
  phyto_id : Nat
  cid : Option Nat
deriving DecidableEq, Repr

/-- The `structures` table: association list keyed by `phyto_id`. -/
abbrev StructTab : Type := List (Nat × StructRow)

/-- Look up the `structures` row of a phytochemical. -/
def tabGet : StructTab → Nat → Option StructRow
  | [], _ => none
  | (k, v) :: rest, pid => if k = pid then some v else tabGet rest pid

/-- Store the `structures` row of a phytochemical. -/
def tabSet (t : StructTab) (pid : Nat) (r : StructRow) : StructTab :=
  (pid, r) :: t

/-- The SQL filter of `/admin/download_missing_structures`:
`p.cid IS NOT NULL AND (s.phyto_id IS NULL OR (s.sdf_2d_path IS NULL AND
s.sdf_3d_path IS NULL AND s.png_2d_path IS NULL))`. -/
def eligible (tab : StructTab) (e : PhytoEntry) : Bool :=
  e.cid.isSome &&
    (match tabGet tab e.phyto_id with
     | none => true
     | some s => s.sdf_2d_path.isNone && s.sdf_3d_path.isNone && s.png_2d_path.isNone)

/-- Global state of the batch run: artifact filesystem plus `structures` table. -/
structure BatchState where
  fs : FS
  tab : StructTab
deriving DecidableEq, Repr

/-- One iteration of the admin batch loop:
`fetch_structures_on_demand(int(r["phyto_id"]), int(r["cid"]))`. -/
def batchStep (oracle : Nat → NetTriple) (st : BatchState) (e : PhytoEntry) :
    BatchState :=
  let r := fetch_structures_on_demand (oracle e.phyto_id) (e.cid.getD 0)
    ⟨st.fs, tabGet st.tab e.phyto_id⟩
  match r.2.structRow with
  | some row => ⟨r.2.fs, tabSet st.tab e.phyto_id row⟩
  | none => ⟨r.2.fs, st.tab⟩

/-- `/admin/download_missing_structures?limit=N` from `src/app.py`:
caps the limit at 100, selects up to `limit` enrichment-eligible rows,
runs `fetch_structures_on_demand` on each while incrementing `done`
unconditionally, and returns `{"downloaded": done, "requested": limit}`
(the pair below) together with the final state. -/
def admin_download_missing_structures (limitArg : Nat)
    (phytos : List PhytoEntry) (oracle : Nat → NetTriple) (st : BatchState) :
    (Nat × Nat) × BatchState :=
  let limit := min limitArg 100
  let rows := (phytos.filter (eligible st.tab)).take limit
  let final := rows.foldl (batchStep oracle) st
  ((rows.length, limit), final)

/-! ### Concrete instances used by witnesses and counterexamples -/

/-- A network on which every attempt raises. -/
def netErr : Nat → NetResult := fun _ => NetResult.err

/-- A valid (≥ 100 byte) response body. -/
def bigBody : List Nat := List.replicate 100 7

/-- A network on which every attempt succeeds with a valid body. -/
def netOk : Nat → NetResult := fun _ => NetResult.ok bigBody

/-- A network failing on attempts 1 and 2 and succeeding on attempt 3. -/
def netThirdOk : Nat → NetResult :=
  fun a => if a = 3 then NetResult.ok bigBody else NetResult.err

/-- All three artifact networks succeed. -/
def netsAllOk : NetTriple := ⟨netOk, netOk, netOk⟩

/-- 2D and 3D succeed, the PNG download always fails. -/
def netsPngFail : NetTriple := ⟨netOk, netOk, netErr⟩

/-- All three artifact networks fail on every attempt. -/
def netsAllErr : NetTriple := ⟨netErr, netErr, netErr⟩

/-- Batch oracle on which every phytochemical's downloads all fail. -/
def oracleAllErr : Nat → NetTriple := fun _ => netsAllErr

/-- A batched property object with every property absent. -/
def emptyProps : PropsObj :=
  ⟨none, none, none, none, none, none, none, none, none, none, none, none,
    none, none, none⟩

/-- A descriptors row with every value column NULL. -/
def emptyDescRow : DescRow :=
  ⟨none, none, none, none, none, none, none, none, none, none, none, none,
    none, none, none⟩

/-- A previously enriched descriptors row whose `molecular_formula` is
non-null (while e.g. `smiles` is still null, so a re-fetch can trigger). -/
def exDescBefore : DescRow :=
  { emptyDescRow with molecular_formula := some "CH4" }

/-- A joined detail-page row with no cached data at all. -/
def blankRecord : PhytoRecord :=
  ⟨none, none, none, none, none, none, none, none, none, none, none, none⟩

/-- The rule-evaluation example: weight 600, XLogP 6, 2 donors, 4 acceptors. -/
def exRuleInput : PhytoRecord :=
  { blankRecord with
    molecular_weight := some 600
    xlogp := some 6
    hbd := some 2
    hba := some 4 }

/-- A detail-page row with a CID and nothing cached yet. -/
def exFreshRecord : PhytoRecord := { blankRecord with cid := some 42 }

/-- A one-row `phytochemicals` table for the batch endpoint. -/
def exBatchDb : List PhytoEntry := [⟨7, some 99⟩]

/-! ### Helper lemmas about the download loop -/

/-- The retry loop only consults the network on the attempts it performs. -/
theorem downloadAttempts_congr (dest : String) (fs : FS) :
    ∀ (remaining attempt : Nat) (net net' : Nat → NetResult),
      (∀ a, attempt ≤ a → a < attempt + remaining → net a = net' a) →
      downloadAttempts net dest fs attempt remaining =
        downloadAttempts net' dest fs attempt remaining := by
  intro remaining
  induction remaining with
  | zero => intro attempt net net' _; rfl
  | succ r ih =>
    intro attempt net net' h
    have h1 : net attempt = net' attempt := h attempt le_rfl (by omega)
    have hrec := ih (attempt + 1) net net' (fun a ha hb => h a (by omega) (by omega))
    simp only [downloadAttempts, h1, hrec]

/-- A cached non-empty destination short-circuits the download. -/
theorem download_file_cached (net : Nat → NetResult) (dest : String) (fs : FS)
    (c : List Nat) (h : fsGet fs dest = some c) (hc : 0 < c.length) :
    download_file net dest fs 3 = ⟨true, fs, 0⟩ := by
  simp [download_file, h, hc]

/-- A first-attempt success downloads with no backoff sleep. -/
theorem download_file_ok1 (net : Nat → NetResult) (dest : String) (fs : FS)
    (c : List Nat) (h : fsGet fs dest = none) (h1 : net 1 = NetResult.ok c)
    (hc : 100 ≤ c.length) :
    download_file net dest fs 3 = ⟨true, fsSet fs dest c, 0⟩ := by
  simp [download_file, h, downloadAttempts, h1, hc]

/-- Two failures followed by a success: returns the file with 2 sleeps. -/
theorem download_file_err_err_ok (net : Nat → NetResult) (dest : String)
    (fs : FS) (c : List Nat) (h : fsGet fs dest = none)
    (h1 : net 1 = NetResult.err) (h2 : net 2 = NetResult.err)
    (h3 : net 3 = NetResult.ok c) (hc : 100 ≤ c.length) :
    download_file net dest fs 3 = ⟨true, fsSet fs dest c, 2⟩ := by
  simp [download_file, h, downloadAttempts, h1, h2, h3, hc]

/-- Three failures: returns `false`, the filesystem untouched, 3 sleeps. -/
theorem download_file_all_err (net : Nat → NetResult) (dest : String) (fs : FS)
    (h : fsGet fs dest = none) (h1 : net 1 = NetResult.err)
    (h2 : net 2 = NetResult.err) (h3 : net 3 = NetResult.err) :
    download_file net dest fs 3 = ⟨false, fs, 3⟩ := by
  simp [download_file, h, downloadAttempts, h1, h2, h3]

/-- Appending the same suffix to different strings keeps them different. -/
theorem string_append_cancel_right (a b t : String) (h : a ++ t = b ++ t) :
    a = b := by
  have hd : (a ++ t).data = (b ++ t).data := by rw [h]
  simp only [String.data_append] at hd
  exact String.ext (List.append_cancel_right hd)

/-- Strings of different lengths are different. -/
theorem string_length_ne (s t : String) (h : s.length ≠ t.length) : s ≠ t :=
  fun he => h (he ▸ rfl)

/-- The 2D SDF and 3D SDF destinations of a CID are distinct files. -/
theorem fsDest2d_ne_fsDest3d (cid : Nat) : fsDest2d cid ≠ fsDest3d cid := by
  intro h
  have h1 := string_append_cancel_right _ _ _ h
  have h2 := string_append_cancel_right _ _ _ h1
  exact absurd h2 (by decide)

/-- The 2D SDF and PNG destinations of a CID are distinct files. -/
theorem fsDest2d_ne_fsDestPng (cid : Nat) : fsDest2d cid ≠ fsDestPng cid := by
  apply string_length_ne
  simp only [fsDest2d, fsDestPng, String.length_append]
  have h1 : ("static/structures/sdf2d/CID_" : String).length = 28 := rfl
  have h2 : ("static/structures/png/CID_" : String).length = 26 := rfl
  have h3 : (".sdf" : String).length = 4 := rfl
  have h4 : (".png" : String).length = 4 := rfl
  omega

/-- The 3D SDF and PNG destinations of a CID are distinct files. -/
theorem fsDest3d_ne_fsDestPng (cid : Nat) : fsDest3d cid ≠ fsDestPng cid := by
  apply string_length_ne
  simp only [fsDest3d, fsDestPng, String.length_append]
  have h1 : ("static/structures/sdf3d/CID_" : String).length = 28 := rfl
  have h2 : ("static/structures/png/CID_" : String).length = 26 := rfl
  have h3 : (".sdf" : String).length = 4 := rfl
  have h4 : (".png" : String).length = 4 := rfl
  omega

/-- Reading back the file just written. -/
theorem fsGet_fsSet_self (fs : FS) (d : String) (c : List Nat) :
    fsGet (fsSet fs d c) d = some c := by
  simp [fsSet, fsGet]

/-- Writing one file does not affect reads of another. -/
theorem fsGet_fsSet_ne (fs : FS) (d d' : String) (c : List Nat) (h : d ≠ d') :
    fsGet (fsSet fs d c) d' = fsGet fs d' := by
  simp [fsSet, fsGet, h]

/-- With all three artifacts downloaded, the upserted row is the fully filled
row, independent of the previous row. -/
theorem upsert_all_true (cid : Nat) (row : Option StructRow) :
    upsert_structure_paths cid true true true row =
      ⟨true, true, some (dbPath2d cid), some (dbPath3d cid),
        some (dbPathPng cid)⟩ := by
  simp [upsert_structure_paths]

/-! ### Claim theorems -/

/-- C5: `download_file` attempts at most 3 times (its result depends on the
network only through attempts 1–3); a run whose first two attempts fail and
whose third succeeds returns `true` having performed exactly 2 inter-attempt
backoff sleeps; and after 3 failed attempts it returns `false` (the model is a
total function into `DlOutcome` — every exception is caught inside the loop,
so no exception reaches the caller). -/
theorem C5_download_retry_contract (net net' : Nat → NetResult) (dest : String)
    (fs : FS) :
    ((∀ a, 1 ≤ a → a ≤ 3 → net a = net' a) →
      download_file net dest fs 3 = download_file net' dest fs 3)
    ∧ (∀ c : List Nat, fsGet fs dest = none →
        net 1 = NetResult.err → net 2 = NetResult.err →
        net 3 = NetResult.ok c → 100 ≤ c.length →
        download_file net dest fs 3 = ⟨true, fsSet fs dest c, 2⟩)
    ∧ (fsGet fs dest = none →
        net 1 = NetResult.err → net 2 = NetResult.err →
        net 3 = NetResult.err →
        download_file net dest fs 3 = ⟨false, fs, 3⟩) := by
  refine ⟨?_, ?_, ?_⟩
  · intro h
    have hcong := downloadAttempts_congr dest fs 3 1 net net'
      (fun a ha hb => h a ha (by omega))
    unfold download_file
    cases hfs : fsGet fs dest with
    | none => simpa using hcong
    | some c => simp [hcong]
  · intro c h h1 h2 h3 hc
    exact download_file_err_err_ok net dest fs c h h1 h2 h3 hc
  · intro h h1 h2 h3
    exact download_file_all_err net dest fs h h1 h2 h3

/-- Witness for C5 at the concrete fail-fail-succeed and all-fail networks. -/
theorem C5_download_retry_contract_witness :
    download_file netThirdOk "dest" [] 3 = ⟨true, fsSet [] "dest" bigBody, 2⟩
    ∧ download_file netErr "dest" [] 3 = ⟨false, [], 3⟩ := by
  constructor
  · exact (C5_download_retry_contract netThirdOk netThirdOk "dest" []).2.1
      bigBody rfl rfl rfl rfl (by decide)
  · exact (C5_download_retry_contract netErr netErr "dest" []).2.2
      rfl rfl rfl rfl

/-- C10: when the compound id is absent, or when all three artifact downloads
fail, `fetch_structures_on_demand` returns `false` and leaves the state —
in particular the `structures` row — exactly as it was (no row is created). -/
theorem C10_total_failure_no_write (nets : NetTriple) (cid : Nat)
    (st : EnrichState)
    (h2 : fsGet st.fs (fsDest2d cid) = none)
    (h3 : fsGet st.fs (fsDest3d cid) = none)
    (hp : fsGet st.fs (fsDestPng cid) = none)
    (e2 : ∀ a, nets.net2d a = NetResult.err)
    (e3 : ∀ a, nets.net3d a = NetResult.err)
    (ep : ∀ a, nets.netPng a = NetResult.err) :
    fetch_structures_on_demand nets cid st = (false, st)
    ∧ ∀ (nets' : NetTriple) (st' : EnrichState),
        fetch_structures_on_demand nets' 0 st' = (false, st') := by
  constructor
  · by_cases hc : cid = 0
    · simp [fetch_structures_on_demand, hc]
    · have d2 := download_file_all_err nets.net2d (fsDest2d cid) st.fs h2
        (e2 1) (e2 2) (e2 3)
      have d3 := download_file_all_err nets.net3d (fsDest3d cid) st.fs h3
        (e3 1) (e3 2) (e3 3)
      have dp := download_file_all_err nets.netPng (fsDestPng cid) st.fs hp
        (ep 1) (ep 2) (ep 3)
      simp [fetch_structures_on_demand, hc, d2, d3, dp]
  · intro nets' st'
    simp [fetch_structures_on_demand]

/-- Witness for C10 with all-failing networks, CID 5, and a fresh state. -/
theorem C10_total_failure_no_write_witness :
    fetch_structures_on_demand netsAllErr 5 ⟨[], none⟩ = (false, ⟨[], none⟩) := by
  exact (C10_total_failure_no_write netsAllErr 5 ⟨[], none⟩ rfl rfl rfl
    (fun _ => rfl) (fun _ => rfl) (fun _ => rfl)).1

/-- C6: when the 2D and 3D downloads succeed but the PNG download fails, the
enrichment pass still reports success and the upserted row gains the 2D and 3D
paths (and flags) while the image-path column keeps its previous value — null
for a fresh record; in general a field whose artifact was not fetched this
round is left untouched by `upsert_structure_paths`. -/
theorem C6_partial_failure_tolerance (nets : NetTriple) (cid : Nat)
    (row0 : Option StructRow) (c2 c3 : List Nat) (hc : cid ≠ 0)
    (h2 : nets.net2d 1 = NetResult.ok c2) (hl2 : 100 ≤ c2.length)
    (h3 : nets.net3d 1 = NetResult.ok c3) (hl3 : 100 ≤ c3.length)
    (ep : ∀ a, nets.netPng a = NetResult.err) :
    (fetch_structures_on_demand nets cid ⟨[], row0⟩).1 = true
    ∧ (fetch_structures_on_demand nets cid ⟨[], row0⟩).2.structRow =
        some ⟨true, true, some (dbPath2d cid), some (dbPath3d cid),
          (row0.getD emptyStructRow).png_2d_path⟩
    ∧ (row0 = none →
        (fetch_structures_on_demand nets cid ⟨[], row0⟩).2.structRow =
          some ⟨true, true, some (dbPath2d cid), some (dbPath3d cid), none⟩)
    ∧ (∀ (cid' : Nat) (g2 g3 gp : Bool) (r0 : StructRow),
        (g2 = false →
          (upsert_structure_paths cid' g2 g3 gp (some r0)).has_2d = r0.has_2d
          ∧ (upsert_structure_paths cid' g2 g3 gp (some r0)).sdf_2d_path =
              r0.sdf_2d_path)
        ∧ (g3 = false →
          (upsert_structure_paths cid' g2 g3 gp (some r0)).has_3d = r0.has_3d
          ∧ (upsert_structure_paths cid' g2 g3 gp (some r0)).sdf_3d_path =
              r0.sdf_3d_path)
        ∧ (gp = false →
          (upsert_structure_paths cid' g2 g3 gp (some r0)).png_2d_path =
            r0.png_2d_path)) := by
  have d2 := download_file_ok1 nets.net2d (fsDest2d cid) [] c2 rfl h2 hl2
  have hget3 : fsGet (fsSet [] (fsDest2d cid) c2) (fsDest3d cid) = none :=
    fsGet_fsSet_ne [] _ _ c2 (fsDest2d_ne_fsDest3d cid)
  have d3 := download_file_ok1 nets.net3d (fsDest3d cid)
    (fsSet [] (fsDest2d cid) c2) c3 hget3 h3 hl3
  have hgetp : fsGet (fsSet (fsSet [] (fsDest2d cid) c2) (fsDest3d cid) c3)
      (fsDestPng cid) = none := by
    rw [fsGet_fsSet_ne _ _ _ c3 (fsDest3d_ne_fsDestPng cid)]
    exact fsGet_fsSet_ne [] _ _ c2 (fsDest2d_ne_fsDestPng cid)
  have dp := download_file_all_err nets.netPng (fsDestPng cid)
    (fsSet (fsSet [] (fsDest2d cid) c2) (fsDest3d cid) c3) hgetp
    (ep 1) (ep 2) (ep 3)
  have hfetch : fetch_structures_on_demand nets cid ⟨[], row0⟩ =
      (true, ⟨fsSet (fsSet [] (fsDest2d cid) c2) (fsDest3d cid) c3,
        some (upsert_structure_paths cid true true false row0)⟩) := by
    simp [fetch_structures_on_demand, hc, d2, d3, dp]
  refine ⟨by rw [hfetch], ?_, ?_, ?_⟩
  · rw [hfetch]
    cases row0 <;> simp [upsert_structure_paths, emptyStructRow]
  · intro h0
    subst h0
    rw [hfetch]
    simp [upsert_structure_paths, emptyStructRow]
  · intro cid' g2 g3 gp r0
    refine ⟨?_, ?_, ?_⟩
    · intro hg; subst hg
      cases g3 <;> cases gp <;> simp [upsert_structure_paths]
    · intro hg; subst hg
      cases g2 <;> cases gp <;> simp [upsert_structure_paths]
    · intro hg; subst hg
      cases g2 <;> cases g3 <;> simp [upsert_structure_paths]

/-- Witness for C6: fresh record, CID 5, PNG network failing. -/
theorem C6_partial_failure_tolerance_witness :
    (fetch_structures_on_demand netsPngFail 5 ⟨[], none⟩).1 = true
    ∧ (fetch_structures_on_demand netsPngFail 5 ⟨[], none⟩).2.structRow =
        some ⟨true, true, some (dbPath2d 5), some (dbPath3d 5), none⟩ := by
  have h := C6_partial_failure_tolerance netsPngFail 5 none bigBody bigBody
    (by decide) rfl (by decide) rfl (by decide) (fun _ => rfl)
  exact ⟨h.1, h.2.2.1 rfl⟩

/-- C7: with every remote call succeeding, running structure enrichment twice
from a fresh filesystem yields exactly the state of running it once — both
calls return `true`, and the second call (with an arbitrary network, which it
never consults) skips every download because the destinations already exist
non-empty, leaving the filesystem and the structures row unchanged. -/
theorem C7_idempotent_enrichment (nets nets' : NetTriple) (cid : Nat)
    (row0 : Option StructRow) (c2 c3 cp : List Nat) (hc : cid ≠ 0)
    (h2 : nets.net2d 1 = NetResult.ok c2) (hl2 : 100 ≤ c2.length)
    (h3 : nets.net3d 1 = NetResult.ok c3) (hl3 : 100 ≤ c3.length)
    (hp : nets.netPng 1 = NetResult.ok cp) (hlp : 100 ≤ cp.length) :
    (fetch_structures_on_demand nets cid ⟨[], row0⟩).1 = true
    ∧ (fetch_structures_on_demand nets' cid
        (fetch_structures_on_demand nets cid ⟨[], row0⟩).2).1 = true
    ∧ (fetch_structures_on_demand nets' cid
        (fetch_structures_on_demand nets cid ⟨[], row0⟩).2).2 =
      (fetch_structures_on_demand nets cid ⟨[], row0⟩).2 := by
  have d2 := download_file_ok1 nets.net2d (fsDest2d cid) [] c2 rfl h2 hl2
  have hget3 : fsGet (fsSet [] (fsDest2d cid) c2) (fsDest3d cid) = none :=
    fsGet_fsSet_ne [] _ _ c2 (fsDest2d_ne_fsDest3d cid)
  have d3 := download_file_ok1 nets.net3d (fsDest3d cid)
    (fsSet [] (fsDest2d cid) c2) c3 hget3 h3 hl3
  have hgetp : fsGet (fsSet (fsSet [] (fsDest2d cid) c2) (fsDest3d cid) c3)
      (fsDestPng cid) = none := by
    rw [fsGet_fsSet_ne _ _ _ c3 (fsDest3d_ne_fsDestPng cid)]
    exact fsGet_fsSet_ne [] _ _ c2 (fsDest2d_ne_fsDestPng cid)
  have dp := download_file_ok1 nets.netPng (fsDestPng cid)
    (fsSet (fsSet [] (fsDest2d cid) c2) (fsDest3d cid) c3) cp hgetp hp hlp
  set fs1 : FS := fsSet (fsSet (fsSet [] (fsDest2d cid) c2) (fsDest3d cid) c3)
    (fsDestPng cid) cp with hfs1
  have hfetch1 : fetch_structures_on_demand nets cid ⟨[], row0⟩ =
      (true, ⟨fs1, some (upsert_structure_paths cid true true true row0)⟩) := by
    simp [fetch_structures_on_demand, hc, d2, d3, dp, hfs1]
  have hg2 : fsGet fs1 (fsDest2d cid) = some c2 := by
    rw [hfs1, fsGet_fsSet_ne _ _ _ cp (Ne.symm (fsDest2d_ne_fsDestPng cid)),
      fsGet_fsSet_ne _ _ _ c3 (Ne.symm (fsDest2d_ne_fsDest3d cid))]
    exact fsGet_fsSet_self [] _ c2
  have hg3 : fsGet fs1 (fsDest3d cid) = some c3 := by
    rw [hfs1, fsGet_fsSet_ne _ _ _ cp (Ne.symm (fsDest3d_ne_fsDestPng cid))]
    exact fsGet_fsSet_self _ _ c3
  have hgp : fsGet fs1 (fsDestPng cid) = some cp := fsGet_fsSet_self _ _ cp
  have d2' := download_file_cached nets'.net2d (fsDest2d cid) fs1 c2 hg2
    (by omega)
  have d3' := download_file_cached nets'.net3d (fsDest3d cid) fs1 c3 hg3
    (by omega)
  have dp' := download_file_cached nets'.netPng (fsDestPng cid) fs1 cp hgp
    (by omega)
  have hfetch2 : fetch_structures_on_demand nets' cid
      ⟨fs1, some (upsert_structure_paths cid true true true row0)⟩ =
      (true, ⟨fs1, some (upsert_structure_paths cid true true true
        (some (upsert_structure_paths cid true true true row0)))⟩) := by
    simp [fetch_structures_on_demand, hc, d2', d3', dp']
  refine ⟨by rw [hfetch1], ?_, ?_⟩
  · rw [hfetch1, hfetch2]
  · rw [hfetch1, hfetch2]
    simp [upsert_all_true]

/-- Witness for C7 at CID 5 with all-succeeding networks. -/
theorem C7_idempotent_enrichment_witness :
    (fetch_structures_on_demand netsAllOk 5 ⟨[], none⟩).1 = true
    ∧ (fetch_structures_on_demand netsAllErr 5
        (fetch_structures_on_demand netsAllOk 5 ⟨[], none⟩).2).2 =
      (fetch_structures_on_demand netsAllOk 5 ⟨[], none⟩).2 := by
  have h := C7_idempotent_enrichment netsAllOk netsAllErr 5 none
    bigBody bigBody bigBody (by decide) rfl (by decide) rfl (by decide) rfl
    (by decide)
  exact ⟨h.1, h.2.2⟩

/-- On a successful batched fetch, the stored descriptors row is exactly the
freshly fetched row: every batched value is copied, with the two SMILES
variants falling back to the TXT endpoint when the batched value is null. -/
theorem fetch_descriptors_success_row (p : PropsObj) (txtC txtI : Option String)
    (cid : Nat) (d0 : Option DescRow) (hc : cid ≠ 0) :
    fetch_descriptors_from_pubchem (some p) txtC txtI cid d0 =
      (true, some ⟨p.MolecularFormula, p.MolecularWeight, p.XLogP, p.TPSA,
        p.HBondDonorCount, p.HBondAcceptorCount, p.RotatableBondCount,
        p.HeavyAtomCount, p.Complexity, p.Charge,
        (match p.CanonicalSMILES with
         | some s => some s
         | none => pubchem_get_txt txtC),
        (match p.IsomericSMILES with
         | some s => some s
         | none => pubchem_get_txt txtI),
        p.InChI, p.InChIKey, p.IUPACName⟩) := by
  cases hs : p.CanonicalSMILES <;> cases hi : p.IsomericSMILES <;>
    simp [fetch_descriptors_from_pubchem, hc, hs, hi]

/-- C1 counterexample: the descriptor upsert is last-write-wins, so a field
that was non-null before the enrichment operation (here `molecular_formula =
"CH4"`) becomes null when the fresh batched response lacks it — the claimed
monotonic fill fails for descriptor enrichment. -/
theorem C1_monotonic_fill_counterexample :
    exDescBefore.molecular_formula = some "CH4"
    ∧ (fetch_descriptors_from_pubchem (some emptyProps) none none 5
        (some exDescBefore)).1 = true
    ∧ (fetch_descriptors_from_pubchem (some emptyProps) none none 5
        (some exDescBefore)).2 = some emptyDescRow
    ∧ emptyDescRow.molecular_formula = none := by
  refine ⟨rfl, rfl, ?_, rfl⟩
  decide

/-- C1 amended: monotonic fill does hold for the structure-path upsert — a
`has` flag that is set stays set and a non-null path stays non-null, whatever
was downloaded this round.  (The descriptor upsert instead overwrites every
column with the freshly fetched value; see the counterexample.) -/
theorem C1_monotonic_fill_structures (cid : Nat) (g2 g3 gp : Bool)
    (r0 : StructRow) :
    (r0.has_2d = true →
      (upsert_structure_paths cid g2 g3 gp (some r0)).has_2d = true)
    ∧ (r0.has_3d = true →
      (upsert_structure_paths cid g2 g3 gp (some r0)).has_3d = true)
    ∧ (r0.sdf_2d_path ≠ none →
      (upsert_structure_paths cid g2 g3 gp (some r0)).sdf_2d_path ≠ none)
    ∧ (r0.sdf_3d_path ≠ none →
      (upsert_structure_paths cid g2 g3 gp (some r0)).sdf_3d_path ≠ none)
    ∧ (r0.png_2d_path ≠ none →
      (upsert_structure_paths cid g2 g3 gp (some r0)).png_2d_path ≠ none) := by
  cases g2 <;> cases g3 <;> cases gp <;>
    simp [upsert_structure_paths]

/-- Witness for the amended C1 at a concrete partially filled row. -/
theorem C1_monotonic_fill_structures_witness :
    (upsert_structure_paths 5 false false false
      (some ⟨true, false, some "structures/sdf2d/CID_5.sdf", none, none⟩)).has_2d
      = true
    ∧ (upsert_structure_paths 5 false false false
      (some ⟨true, false, some "structures/sdf2d/CID_5.sdf", none,
        none⟩)).sdf_2d_path ≠ none := by
  have h := C1_monotonic_fill_structures 5 false false false
    ⟨true, false, some "structures/sdf2d/CID_5.sdf", none, none⟩
  exact ⟨h.1 rfl, h.2.2.1 (by decide)⟩

/-- C3: an exception in the batched property fetch makes
`fetch_descriptors_from_pubchem` return `false` and write nothing (the stored
row, if any, is exactly what it was); a successful batched fetch returns
`true` and writes the complete fresh row in one statement; and a failing
per-field TXT fallback merely yields `None` for that field — the fetch still
succeeds and stores the full row with that single field null. -/
theorem C3_atomic_batched_fetch (p : PropsObj) (txtC txtI : Option String)
    (cid : Nat) (d0 : Option DescRow) (hc : cid ≠ 0) :
    fetch_descriptors_from_pubchem none txtC txtI cid d0 = (false, d0)
    ∧ fetch_descriptors_from_pubchem (some p) txtC txtI cid d0 =
      (true, some ⟨p.MolecularFormula, p.MolecularWeight, p.XLogP, p.TPSA,
        p.HBondDonorCount, p.HBondAcceptorCount, p.RotatableBondCount,
        p.HeavyAtomCount, p.Complexity, p.Charge,
        (match p.CanonicalSMILES with
         | some s => some s
         | none => pubchem_get_txt txtC),
        (match p.IsomericSMILES with
         | some s => some s
         | none => pubchem_get_txt txtI),
        p.InChI, p.InChIKey, p.IUPACName⟩)
    ∧ pubchem_get_txt none = none := by
  refine ⟨?_, fetch_descriptors_success_row p txtC txtI cid d0 hc, rfl⟩
  simp [fetch_descriptors_from_pubchem, hc]

/-- Witness for C3 at CID 5, an all-null previous row and failed fallbacks. -/
theorem C3_atomic_batched_fetch_witness :
    fetch_descriptors_from_pubchem none none none 5 (some exDescBefore) =
      (false, some exDescBefore)
    ∧ fetch_descriptors_from_pubchem (some emptyProps) none none 5
        (some exDescBefore) = (true, some emptyDescRow) := by
  have h := C3_atomic_batched_fetch emptyProps none none 5 (some exDescBefore)
    (by decide)
  exact ⟨h.1, h.2.1⟩

/-- C4: when the batched value of a SMILES field is null, the stored field is
exactly the TXT-fallback result: a body of `"CCO"` stores `"CCO"`; a failed
request, an empty body, or a body equal to `"null"` in any letter case stores
null — never an error-marker value.  Both SMILES variants behave the same. -/
theorem C4_smiles_fallback (p : PropsObj) (txtC txtI : Option String)
    (cid : Nat) (d0 : Option DescRow) (hc : cid ≠ 0)
    (hs : p.CanonicalSMILES = none) (hi : p.IsomericSMILES = none) :
    (fetch_descriptors_from_pubchem (some p) (some "CCO") txtI cid
      d0).2.map (fun r => r.smiles) = some (some "CCO")
    ∧ (fetch_descriptors_from_pubchem (some p) none txtI cid
      d0).2.map (fun r => r.smiles) = some none
    ∧ (fetch_descriptors_from_pubchem (some p) (some "") txtI cid
      d0).2.map (fun r => r.smiles) = some none
    ∧ (fetch_descriptors_from_pubchem (some p) (some "null") txtI cid
      d0).2.map (fun r => r.smiles) = some none
    ∧ (fetch_descriptors_from_pubchem (some p) (some "NULL") txtI cid
      d0).2.map (fun r => r.smiles) = some none
    ∧ (fetch_descriptors_from_pubchem (some p) (some "Null") txtI cid
      d0).2.map (fun r => r.smiles) = some none
    ∧ (fetch_descriptors_from_pubchem (some p) txtC (some "CCO") cid
      d0).2.map (fun r => r.isomeric_smiles) = some (some "CCO")
    ∧ (fetch_descriptors_from_pubchem (some p) txtC none cid
      d0).2.map (fun r => r.isomeric_smiles) = some none := by
  have key : ∀ t, (fetch_descriptors_from_pubchem (some p) t txtI cid
      d0).2.map (fun r => r.smiles) = some (pubchem_get_txt t) := by
    intro t
    rw [fetch_descriptors_success_row p t txtI cid d0 hc]
    simp [hs]
  have keyI : ∀ t, (fetch_descriptors_from_pubchem (some p) txtC t cid
      d0).2.map (fun r => r.isomeric_smiles) = some (pubchem_get_txt t) := by
    intro t
    rw [fetch_descriptors_success_row p txtC t cid d0 hc]
    simp [hi]
  refine ⟨?_, ?_, ?_, ?_, ?_, ?_, ?_, ?_⟩
  · rw [key]; decide
  · rw [key]; decide
  · rw [key]; decide
  · rw [key]; decide
  · rw [key]; decide
  · rw [key]; decide
  · rw [keyI]; decide
  · rw [keyI]; decide

/-- Witness for C4 at CID 5 with an all-null batched response. -/
theorem C4_smiles_fallback_witness :
    (fetch_descriptors_from_pubchem (some emptyProps) (some "CCO") none 5
      (some exDescBefore)).2.map (fun r => r.smiles) = some (some "CCO")
    ∧ (fetch_descriptors_from_pubchem (some emptyProps) (some "null") none 5
      (some exDescBefore)).2.map (fun r => r.smiles) = some none := by
  have h := C4_smiles_fallback emptyProps (some "CCO") none 5
    (some exDescBefore) (by decide) rfl rfl
  exact ⟨h.1, h.2.2.2.1⟩

/-- On a path column that is never the empty string, Python's truthiness test
coincides with the SQL NULL test. -/
theorem pyFalsy_iff (o : Option String) (h : o ≠ some "") :
    (pyFalsy o = true) ↔ o = none := by
  cases o with
  | none => simp [pyFalsy]
  | some t =>
    have ht : t ≠ "" := fun he => h (by rw [he])
    simp [pyFalsy, ht]

/-- On a cid column that is never the integer 0, Python's truthiness test
coincides with "has a compound id". -/
theorem cidTruthy_iff (c : Option Nat) (h : c ≠ some 0) :
    (cidTruthy c = true) ↔ c ≠ none := by
  cases c with
  | none => simp [cidTruthy]
  | some n =>
    have hn : n ≠ 0 := fun he => h (by rw [he])
    simp [cidTruthy, hn]

/-- C2: on the detail-page read path, structure enrichment is attempted iff
the record has a compound id and all three artifact paths are null, and
descriptor enrichment is attempted iff the record has a compound id and at
least one of weight, SMILES, InChIKey is null (assuming the stored columns
are well formed: no empty-string path, no zero cid); a triggered descriptor
enrichment re-fetches and stores the entire descriptor set — the written row
does not depend on the previously stored row. -/
theorem C2_cache_miss_decision (p : PhytoRecord)
    (h2 : p.sdf_2d_path ≠ some "") (h3 : p.sdf_3d_path ≠ some "")
    (hp : p.png_2d_path ≠ some "") (hcid : p.cid ≠ some 0) :
    (attempts_structure_fetch p = true ↔
      p.cid ≠ none ∧ p.sdf_2d_path = none ∧ p.sdf_3d_path = none ∧
        p.png_2d_path = none)
    ∧ (attempts_desc_fetch p = true ↔
      p.cid ≠ none ∧ (p.molecular_weight = none ∨ p.smiles = none ∨
        p.inchikey = none))
    ∧ (∀ (props : PropsObj) (txtC txtI : Option String) (cid : Nat)
        (d1 d2 : Option DescRow), cid ≠ 0 →
        (fetch_descriptors_from_pubchem (some props) txtC txtI cid d1).2 =
          (fetch_descriptors_from_pubchem (some props) txtC txtI cid d2).2) := by
  refine ⟨?_, ?_, ?_⟩
  · simp only [attempts_structure_fetch, missing_all_structures,
      Bool.and_eq_true]
    rw [cidTruthy_iff _ hcid, pyFalsy_iff _ h2, pyFalsy_iff _ h3,
      pyFalsy_iff _ hp]
    tauto
  · simp only [attempts_desc_fetch, missing_desc, Bool.and_eq_true,
      Bool.or_eq_true, Option.isNone_iff_eq_none]
    rw [cidTruthy_iff _ hcid]
    tauto
  · intro props txtC txtI cid d1 d2 hc
    rw [fetch_descriptors_success_row props txtC txtI cid d1 hc,
      fetch_descriptors_success_row props txtC txtI cid d2 hc]

/-- Witness for C2 at a record with CID 42 and nothing cached. -/
theorem C2_cache_miss_decision_witness :
    attempts_structure_fetch exFreshRecord = true
    ∧ attempts_desc_fetch exFreshRecord = true := by
  have h := C2_cache_miss_decision exFreshRecord (by decide) (by decide)
    (by decide) (by decide)
  exact ⟨h.1.mpr ⟨by decide, rfl, rfl, rfl⟩, h.2.1.mpr ⟨by decide, Or.inl rfl⟩⟩

/-- Membership in a conditional singleton list. -/
theorem mem_ite_singleton {s a : String} {c : Prop} [Decidable c] :
    s ∈ (if c then [a] else []) ↔ c ∧ s = a := by
  split_ifs with h <;> simp [h]

/-- C8: a null descriptor field never contributes a violation to any of the
five rule sets (each of its comparisons is skipped); the overall result is
computed only when the molecular weight is present; and on the input
weight = 600, XLogP = 6, donors = 2, acceptors = 4 the first rule set
(Lipinski) fails with `fail_count = 2` and exactly the two entries naming the
weight and partition-coefficient thresholds. -/
theorem C8_druglikeness_rules (d : PhytoRecord) :
    (d.molecular_weight = none →
      "MW > 500" ∉ (calc_druglikeness_rules d).Lipinski.fails
      ∧ "MW not in 160–480" ∉ (calc_druglikeness_rules d).Ghose.fails
      ∧ "MW not in 200–600" ∉ (calc_druglikeness_rules d).Muegge.fails)
    ∧ (d.xlogp = none →
      "XlogP > 5" ∉ (calc_druglikeness_rules d).Lipinski.fails
      ∧ "XLogP not in −0.4–5.6" ∉ (calc_druglikeness_rules d).Ghose.fails
      ∧ "XlogP > 5.88" ∉ (calc_druglikeness_rules d).Egan.fails
      ∧ "XLogP > 5" ∉ (calc_druglikeness_rules d).Muegge.fails)
    ∧ (d.tpsa = none →
      "TPSA > 140" ∉ (calc_druglikeness_rules d).Veber.fails
      ∧ "TPSA > 131.6" ∉ (calc_druglikeness_rules d).Egan.fails
      ∧ "TPSA > 150" ∉ (calc_druglikeness_rules d).Muegge.fails)
    ∧ (d.hbd = none →
      "HBD > 5" ∉ (calc_druglikeness_rules d).Lipinski.fails
      ∧ "HBD > 5" ∉ (calc_druglikeness_rules d).Muegge.fails)
    ∧ (d.hba = none →
      "HBA > 10" ∉ (calc_druglikeness_rules d).Lipinski.fails
      ∧ "HBA > 10" ∉ (calc_druglikeness_rules d).Muegge.fails)
    ∧ (d.rotatable_bonds = none →
      "RotB > 10" ∉ (calc_druglikeness_rules d).Veber.fails
      ∧ "RotB > 15" ∉ (calc_druglikeness_rules d).Muegge.fails)
    ∧ (d.molecular_weight = none → detail_drug_rules d = none)
    ∧ (d.molecular_weight ≠ none →
      detail_drug_rules d = some (calc_druglikeness_rules d))
    ∧ (calc_druglikeness_rules exRuleInput).Lipinski.fail_count = 2
    ∧ (calc_druglikeness_rules exRuleInput).Lipinski.fails =
        ["MW > 500", "XlogP > 5"]
    ∧ (calc_druglikeness_rules exRuleInput).Lipinski.pass = false := by
  refine ⟨?_, ?_, ?_, ?_, ?_, ?_, ?_, ?_, by decide, by decide, by decide⟩
  · intro h
    refine ⟨?_, ?_, ?_⟩ <;>
      simp [calc_druglikeness_rules, mkRuleResult, h, optGtQ, optGtI,
        optOutsideQ, List.mem_append, mem_ite_singleton]
  · intro h
    refine ⟨?_, ?_, ?_, ?_⟩ <;>
      simp [calc_druglikeness_rules, mkRuleResult, h, optGtQ, optGtI,
        optOutsideQ, List.mem_append, mem_ite_singleton]
  · intro h
    refine ⟨?_, ?_, ?_⟩ <;>
      simp [calc_druglikeness_rules, mkRuleResult, h, optGtQ, optGtI,
        optOutsideQ, List.mem_append, mem_ite_singleton]
  · intro h
    refine ⟨?_, ?_⟩ <;>
      simp [calc_druglikeness_rules, mkRuleResult, h, optGtQ, optGtI,
        optOutsideQ, List.mem_append, mem_ite_singleton]
  · intro h
    refine ⟨?_, ?_⟩ <;>
      simp [calc_druglikeness_rules, mkRuleResult, h, optGtQ, optGtI,
        optOutsideQ, List.mem_append, mem_ite_singleton]
  · intro h
    refine ⟨?_, ?_⟩ <;>
      simp [calc_druglikeness_rules, mkRuleResult, h, optGtQ, optGtI,
        optOutsideQ, List.mem_append, mem_ite_singleton]
  · intro h
    simp [detail_drug_rules, h]
  · intro h
    cases hm : d.molecular_weight with
    | none => exact absurd hm h
    | some v => simp [detail_drug_rules, hm]

/-- Witness for C8 at the all-null record. -/
theorem C8_druglikeness_rules_witness :
    "MW > 500" ∉ (calc_druglikeness_rules blankRecord).Lipinski.fails
    ∧ detail_drug_rules blankRecord = none := by
  have h := C8_druglikeness_rules blankRecord
  exact ⟨(h.1 rfl).1, h.2.2.2.2.2.2.1 rfl⟩

/-- C9 counterexample: with one eligible record whose downloads all fail, the
admin batch endpoint reports `{"downloaded": 1, "requested": 1}` even though
zero records succeeded (the enrichment call returned `false` and no
`structures` row was created) — the response reports the attempted count and
the capped limit, not the count that succeeded. -/
theorem C9_batch_report_counterexample :
    admin_download_missing_structures 1 exBatchDb oracleAllErr ⟨[], []⟩ =
      ((1, 1), ⟨[], []⟩)
    ∧ fetch_structures_on_demand (oracleAllErr 7) 99 ⟨[], none⟩ =
        (false, ⟨[], none⟩) := by
  constructor
  · rfl
  · rfl

/-- C9 amended: the batch endpoint processes at most `min(limit, 100)`
enrichment-eligible records and reports the number processed (`downloaded`,
incremented for every processed record regardless of per-record success)
together with the capped requested limit (`requested`); no success count is
reported. -/
theorem C9_batch_surface (limitArg : Nat) (phytos : List PhytoEntry)
    (oracle : Nat → NetTriple) (st : BatchState) :
    (admin_download_missing_structures limitArg phytos oracle st).1.1 =
      ((phytos.filter (eligible st.tab)).take (min limitArg 100)).length
    ∧ (admin_download_missing_structures limitArg phytos oracle st).1.1 ≤
        limitArg
    ∧ (admin_download_missing_structures limitArg phytos oracle st).1.1 ≤ 100
    ∧ (admin_download_missing_structures limitArg phytos oracle st).1.2 =
        min limitArg 100 := by
  refine ⟨rfl, ?_, ?_, rfl⟩
  · exact le_trans (List.length_take_le _ _) (min_le_left _ _)
  · exact le_trans (List.length_take_le _ _) (min_le_right _ _)

end SpicesDB
